import Mathlib

/-!
# Verification of dfcx-scrapi builders and entity-type wrapper

A shallow embedding of `src/dfcx_scrapi/builders/pages.py`,
`src/dfcx_scrapi/builders/transition_route_groups.py` and
`src/dfcx_scrapi/core/entity_types.py`.

Proto-plus message semantics used throughout:
* a message value is "truthy" iff it differs from the all-default message
  (proto-plus `Message.__bool__` reports whether any field is set);
* accessing a sub-message field always yields a message (never `None`);
* a repeated field is truthy iff it is non-empty.

The builder base class `BuildersCommon` (file `builders_common.py`) and the
leaf builders (`routes.py`, `fulfillments.py`) are not part of the provided
sources; the handful of helpers the provided files call
(`_check_proto_obj_attr_exist`, `_match_transition_route`,
`_find_unmatched_event_handlers`, `_find_unmatched_event_handlers_by_name`,
`TransitionRouteBuilder.create_new_proto_obj`, `FulfillmentBuilder.has_webhook`)
are modelled from the spec where indicated.

Each builder method is embedded as a function from the builder state
(`Option Page` / `Option TransitionRouteGroup`, `none` when no object is held)
and the call arguments to a pair `(Except Err α × state)`: the first component
is the returned value or the exception raised, the second the builder state
after the call, mirroring the statement order of the Python source (an
exception aborts the method, keeping every mutation already performed).
-/

set_option autoImplicit false

namespace DfcxScrapi

/-- Exceptions raised by the embedded code. `.valueError`/`.typeError` are
argument-shape violations, `.userWarning` the state-precondition signal used
by the builders, `.keyError` the pandas missing-column error and
`.remoteError` a failure of the remote RPC transport. -/
inductive Err where
  | valueError
  | typeError
  | userWarning
  | keyError
  | remoteError
  deriving DecidableEq, Repr

deriving instance DecidableEq for Except

/-- `google.cloud.dialogflowcx_v3beta1.types.Fulfillment` (the fields this
development reads; response messages are flattened to their text payloads).
The `return_partial_responses` flag is never read by the claims and is
omitted. -/
structure Fulfillment where
  webhook : String := ""
  tag : String := ""
  messages : List String := []
  parameter_presets : List (String × String) := []
  deriving DecidableEq, Repr

/-- `types.EventHandler`. -/
structure EventHandler where
  name : String := ""
  event : String := ""
  trigger_fulfillment : Fulfillment := {}
  target_page : String := ""
  target_flow : String := ""
  deriving DecidableEq, Repr

/-- `types.TransitionRoute`. -/
structure TransitionRoute where
  name : String := ""
  intent : String := ""
  condition : String := ""
  trigger_fulfillment : Fulfillment := {}
  target_page : String := ""
  target_flow : String := ""
  deriving DecidableEq, Repr

/-- `types.Form.Parameter.FillBehavior`. -/
structure FillBehavior where
  initial_prompt_fulfillment : Fulfillment := {}
  reprompt_event_handlers : List EventHandler := []
  deriving DecidableEq, Repr

/-- `types.Form.Parameter`. -/
structure Parameter where
  display_name : String := ""
  required : Bool := false
  entity_type : String := ""
  is_list : Bool := false
  redact : Bool := false
  default_value : String := ""
  fill_behavior : FillBehavior := {}
  deriving DecidableEq, Repr

/-- `types.Form`. -/
structure Form where
  parameters : List Parameter := []
  deriving DecidableEq, Repr

/-- `types.Page`. -/
structure Page where
  name : String := ""
  display_name : String := ""
  entry_fulfillment : Fulfillment := {}
  form : Form := {}
  transition_route_groups : List String := []
  transition_routes : List TransitionRoute := []
  event_handlers : List EventHandler := []
  deriving DecidableEq, Repr

/-- `types.TransitionRouteGroup`. -/
structure TransitionRouteGroup where
  name : String := ""
  display_name : String := ""
  transition_routes : List TransitionRoute := []
  deriving DecidableEq, Repr

/-- Proto-plus truthiness of a `Page`: any field set. -/
def pageTruthy (p : Page) : Bool := decide (p ≠ ({} : Page))

/-- Proto-plus truthiness of a `TransitionRouteGroup`: any field set. -/
def trgTruthy (g : TransitionRouteGroup) : Bool :=
  decide (g ≠ ({} : TransitionRouteGroup))

/-- Proto-plus truthiness of a `Fulfillment`: any field set. -/
def fulfillmentTruthy (f : Fulfillment) : Bool := decide (f ≠ ({} : Fulfillment))

/-- Proto-plus truthiness of a `TransitionRoute`: any field set. -/
def trTruthy (tr : TransitionRoute) : Bool := decide (tr ≠ ({} : TransitionRoute))

/-- Proto-plus truthiness of an `EventHandler`: any field set. -/
def ehTruthy (eh : EventHandler) : Bool := decide (eh ≠ ({} : EventHandler))

/-- Python truthiness of an optional string argument (`None` and `""` are
falsy). -/
def strSpecified : Option String → Bool
  | none => false
  | some s => s ≠ ""

/-- A Python argument that may be a single value or a list of values
(`Union[T, List[T]]`), or absent. -/
inductive PyArg (α : Type) where
  | absent
  | single (a : α)
  | list (l : List α)
  deriving DecidableEq, Repr

/-- Python truthiness of a `Union[T, List[T]] = None` argument, given the
truthiness of a single `T`. -/
def PyArg.truthy {α : Type} (t : α → Bool) : PyArg α → Bool
  | .absent => false
  | .single a => t a
  | .list l => !l.isEmpty

/-- Whether the argument is not `None` (`arg is None` test, truthiness of the
value itself not considered). -/
def PyArg.isGiven {α : Type} : PyArg α → Bool
  | .absent => false
  | _ => true

/-- Normalisation `if not isinstance(x, list): x = [x]` applied after the
type check in the builder methods. -/
def PyArg.toList {α : Type} : PyArg α → List α
  | .absent => []
  | .single a => [a]
  | .list l => l

/-- The result of a method call on a builder: the returned value or the
exception raised, together with the builder state after the call. -/
abbrev MethodResult (σ : Type) (α : Type) := Except Err α × σ

/-- Modelled from the spec: `TransitionRouteBuilder.create_new_proto_obj`
(file `routes.py` not provided) — "optional intent reference, optional
condition expression (at least one of the two must be present), optional
target (a page reference or a flow reference, mutually exclusive)"; "For all
valid (intent, condition) pairs except (absent, absent), route construction
succeeds; for (absent, absent) it fails." -/
def transitionRouteCreate (intent condition : Option String)
    (trigger_fulfillment : Option Fulfillment)
    (target_page target_flow : Option String) : Except Err TransitionRoute :=
  if !(strSpecified intent || strSpecified condition) then .error .valueError
  else if strSpecified target_page && strSpecified target_flow then
    .error .valueError
  else
    .ok { intent := intent.getD "", condition := condition.getD "",
          trigger_fulfillment := trigger_fulfillment.getD {},
          target_page := target_page.getD "", target_flow := target_flow.getD "" }

/-- Modelled from the spec: `TransitionRouteBuilder.set_fulfillment`
(file `routes.py` not provided) — installs a trigger fulfillment carrying the
agent's response messages and the parameter presets. -/
def transitionRouteSetFulfillment (r : TransitionRoute)
    (agent_response : PyArg String)
    (parameter_map : Option (List (String × String))) : TransitionRoute :=
  { r with
    trigger_fulfillment :=
      { messages := agent_response.toList,
        parameter_presets := parameter_map.getD [] } }

/-- Modelled from the spec: `BuildersCommon._match_transition_route`
(file `builders_common.py` not provided) — "`remove_*` operations accept
either an exact object to remove or a set of matching criteria (e.g., by
intent, by condition …); at least one criterion is required, else it fails.
Matching is exact structural equality on the specified fields."  Criteria are
tested for presence by Python truthiness, a fully-default target route or an
empty string counting as absent. -/
def criteriaGiven (target_route : Option TransitionRoute)
    (intent condition : Option String) : Bool :=
  (target_route.map trTruthy).getD false || strSpecified intent ||
    strSpecified condition

/-- Continuation of the model above: whether the route matches the supplied
criteria, all specified fields compared by structural equality. -/
def matchTransitionRoute (tr : TransitionRoute)
    (target_route : Option TransitionRoute) (intent condition : Option String) :
    Except Err Bool :=
  if !(criteriaGiven target_route intent condition) then
    .error .userWarning
  else
    let tgtOk : Bool :=
      if (target_route.map trTruthy).getD false then target_route = some tr else true
    let intentOk : Bool := if strSpecified intent then some tr.intent = intent else true
    let condOk : Bool := if strSpecified condition then some tr.condition = condition else true
    .ok (tgtOk && intentOk && condOk)

/-- The boolean outcome of `matchTransitionRoute` on supplied criteria
(`false` when the criteria check itself would raise). -/
def routeMatches (target_route : Option TransitionRoute)
    (intent condition : Option String) (tr : TransitionRoute) : Bool :=
  match matchTransitionRoute tr target_route intent condition with
  | .ok b => b
  | .error _ => false

/-- The accumulation loop of `remove_transition_route` (pages.py lines
686-694 and transition_route_groups.py lines 261-269): walk the route
collection in order, skip the matching routes, keep the rest; a criteria
error surfaces as the raised exception. -/
def removeRoutesLoop (target_route : Option TransitionRoute)
    (intent condition : Option String) :
    List TransitionRoute → Except Err (List TransitionRoute)
  | [] => .ok []
  | tr :: rest =>
    match matchTransitionRoute tr target_route intent condition with
    | .error e => .error e
    | .ok true => removeRoutesLoop target_route intent condition rest
    | .ok false =>
      match removeRoutesLoop target_route intent condition rest with
      | .error e => .error e
      | .ok l => .ok (tr :: l)

/-- Modelled from the spec: `BuildersCommon._find_unmatched_event_handlers`
(file `builders_common.py` not provided) — removal by exact object, all
matching elements removed. -/
def findUnmatchedEventHandlers (ehs : List EventHandler)
    (given : List EventHandler) : List EventHandler :=
  ehs.filter (fun eh => eh ∉ given)

/-- Modelled from the spec:
`BuildersCommon._find_unmatched_event_handlers_by_name` (file
`builders_common.py` not provided) — removal by event name, all matching
elements removed. -/
def findUnmatchedEventHandlersByName (ehs : List EventHandler)
    (names : List String) : List EventHandler :=
  ehs.filter (fun eh => eh.event ∉ names)

/-- Modelled from the spec: `FulfillmentBuilder.has_webhook` (file
`fulfillments.py` not provided) — whether the fulfillment carries a webhook
reference. -/
def hasWebhook (f : Fulfillment) : Bool := f.webhook ≠ ""

namespace PageBuilder

/-- Builder state: `self.proto_obj`, `None` until an object is installed. -/
abbrev State := Option Page

/-- Modelled from the spec: `BuildersCommon.__init__` (file
`builders_common.py` not provided) — "unset at construction → set once by a
create operation (or by passing an existing object into the constructor)". -/
def init (obj : Option Page) : State := obj

/-- Modelled from the spec: `BuildersCommon._check_proto_obj_attr_exist`
(file `builders_common.py` not provided) — "state-precondition violations
(operating on a builder with no object yet …) — raised immediately".  The
check is the Python truthiness test `if not self.proto_obj`. -/
def checkProtoObj (st : State) : Bool :=
  match st with
  | none => false
  | some p => pageTruthy p

/-- `PageBuilder._create_new_proto_obj` (pages.py lines 129-174), also the
body of `PageBuilder.create_new_page` (lines 222-244), which only delegates
to it.  `_add_proto_attrs_to_builder_obj` copies proto fields onto builder
attributes and never touches `proto_obj`; it is not modelled. -/
def create_new_page (st : State) (display_name : String)
    (entry_fulfillment : Option Fulfillment) (overwrite : Bool) :
    MethodResult State Page :=
  -- `if not (display_name and isinstance(display_name, str)): raise ValueError`
  if display_name = "" then (.error .valueError, st)
  -- the `entry_fulfillment` isinstance check cannot fail in a typed embedding
  -- `if self.proto_obj and not overwrite: raise UserWarning`
  else if (match st with | none => false | some p => pageTruthy p) && !overwrite then
    (.error .userWarning, st)
  -- `if overwrite or not self.proto_obj:` — always true once the check above
  -- passed, because `not (truthy and not ow) = ow or not truthy`
  else if overwrite || !(match st with | none => false | some p => pageTruthy p) then
    -- `if not entry_fulfillment: entry_fulfillment = Fulfillment()`; a falsy
    -- fulfillment is the all-default one, so `getD {}` is the same value
    let ef : Fulfillment := entry_fulfillment.getD {}
    let page : Page := { display_name := display_name, entry_fulfillment := ef }
    (.ok page, some page)
  else
    (.ok (st.getD {}), st)

/-- `PageBuilder.add_parameter` (pages.py lines 327-446).  The `isinstance`
checks on `required`/`is_list`/`redact` and the
`_is_type_or_list_of_types(reprompt_event_handlers, EventHandler, …)` check
cannot fail in a typed embedding.  Constructing
`Form.Parameter.FillBehavior` with a single (unwrapped, falsy) message in the
repeated `reprompt_event_handlers` field raises a proto-plus `TypeError`. -/
def add_parameter (st : State) (display_name entity_type : String)
    (initial_prompt_fulfillment : Option Fulfillment) (required : Bool)
    (default_value : Option String) (is_list : Bool) (redact : Bool)
    (reprompt_event_handlers : PyArg EventHandler) :
    MethodResult State Page :=
  match st with
  | none => (.error .userWarning, none)
  | some p =>
    if !pageTruthy p then (.error .userWarning, some p)
    -- `if not (display_name and isinstance(display_name, str))`
    else if display_name = "" then (.error .valueError, some p)
    -- `if not (entity_type and isinstance(entity_type, str))`
    else if entity_type = "" then (.error .valueError, some p)
    -- `if not (initial_prompt_fulfillment and isinstance(…, Fulfillment))`
    else if !((initial_prompt_fulfillment.map fulfillmentTruthy).getD false) then
      (.error .valueError, some p)
    -- `if not required: if not isinstance(default_value, str): raise`
    else if !required && default_value = none then (.error .valueError, some p)
    else
      let the_param : Parameter :=
        if required then
          { display_name := display_name, required := required,
            entity_type := entity_type, is_list := is_list, redact := redact }
        else
          { display_name := display_name, required := required,
            entity_type := entity_type, is_list := is_list, redact := redact,
            default_value := default_value.getD "" }
      let rehs : Except Err (List EventHandler) :=
        if reprompt_event_handlers.truthy ehTruthy then
          .ok reprompt_event_handlers.toList
        else
          match reprompt_event_handlers with
          | .single _ => .error .typeError
          | _ => .ok []
      match rehs with
      | .error e => (.error e, some p)
      | .ok rehList =>
        let the_param :=
          { the_param with
            fill_behavior :=
              { initial_prompt_fulfillment := initial_prompt_fulfillment.getD {},
                reprompt_event_handlers := rehList } }
        let p' := { p with form := { parameters := p.form.parameters ++ [the_param] } }
        (.ok p', some p')

/-- `PageBuilder.add_transition_route` (pages.py lines 448-530). -/
def add_transition_route (st : State) (transition_routes : PyArg TransitionRoute)
    (intent condition target_page target_flow : Option String)
    (trigger_fulfillment : Option Fulfillment) (agent_response : PyArg String)
    (parameter_map : Option (List (String × String))) :
    MethodResult State Page :=
  match st with
  | none => (.error .userWarning, none)
  | some p =>
    if !pageTruthy p then (.error .userWarning, some p)
    else
      let routes : Except Err (List TransitionRoute) :=
        -- `if not transition_routes is None:` take them as given (after the
        -- vacuous `_is_type_or_list_of_types` check and list normalisation)
        if transition_routes.isGiven then .ok transition_routes.toList
        else
          match transitionRouteCreate intent condition trigger_fulfillment
              target_page target_flow with
          | .error e => .error e
          | .ok r =>
            .ok [if trigger_fulfillment = none then
                   transitionRouteSetFulfillment r agent_response parameter_map
                 else r]
      match routes with
      | .error e => (.error e, some p)
      | .ok rs =>
        let p' := { p with transition_routes := p.transition_routes ++ rs }
        (.ok p', some p')

/-- `PageBuilder.add_event_handler` (pages.py lines 532-598); the on-the-fly
branch builds the handler through `EventHandlerBuilder` (modelled from the
spec: "Event Handler: event name, same trigger-fulfillment/target shape as
Transition Route"). -/
def add_event_handler (st : State) (event_handlers : PyArg EventHandler)
    (event : Option String) (target_page target_flow : Option String)
    (trigger_fulfillment : Option Fulfillment) (agent_response : PyArg String)
    (parameter_map : Option (List (String × String))) :
    MethodResult State Page :=
  match st with
  | none => (.error .userWarning, none)
  | some p =>
    if !pageTruthy p then (.error .userWarning, some p)
    else
      let ehs : Except Err (List EventHandler) :=
        if event_handlers.isGiven then .ok event_handlers.toList
        else
          -- Modelled from the spec: `EventHandlerBuilder.create_new_proto_obj`
          -- requires an event name and a page-xor-flow target.
          if !(strSpecified event) then .error .valueError
          else if strSpecified target_page && strSpecified target_flow then
            .error .valueError
          else
            let tf : Fulfillment :=
              match trigger_fulfillment with
              | some f => f
              | none =>
                { messages := agent_response.toList,
                  parameter_presets := parameter_map.getD [] }
            .ok [{ event := (event.getD ""), trigger_fulfillment := tf,
                   target_page := target_page.getD "",
                   target_flow := target_flow.getD "" }]
      match ehs with
      | .error e => (.error e, some p)
      | .ok l =>
        let p' := { p with event_handlers := p.event_handlers ++ l }
        (.ok p', some p')

/-- `PageBuilder.remove_parameter` (pages.py lines 629-660). -/
def remove_parameter (st : State) (display_name : PyArg String) :
    MethodResult State Page :=
  match st with
  | none => (.error .userWarning, none)
  | some p =>
    if !pageTruthy p then (.error .userWarning, some p)
    -- `if not display_name: raise ValueError`
    else if !display_name.truthy (fun s => s ≠ "") then (.error .valueError, some p)
    else
      let names := display_name.toList
      let p' :=
        { p with
          form :=
            { parameters :=
                p.form.parameters.filter (fun param => param.display_name ∉ names) } }
      (.ok p', some p')

/-- `PageBuilder.remove_transition_route` (pages.py lines 662-696). -/
def remove_transition_route (st : State) (transition_route : Option TransitionRoute)
    (intent condition : Option String) : MethodResult State Page :=
  match st with
  | none => (.error .userWarning, none)
  | some p =>
    if !pageTruthy p then (.error .userWarning, some p)
    else
      match removeRoutesLoop transition_route intent condition p.transition_routes with
      | .error e => (.error e, some p)
      | .ok new_routes =>
        let p' := { p with transition_routes := new_routes }
        (.ok p', some p')

/-- `PageBuilder.remove_event_handler` (pages.py lines 698-739). -/
def remove_event_handler (st : State) (event_handlers : PyArg EventHandler)
    (event_names : PyArg String) : MethodResult State Page :=
  match st with
  | none => (.error .userWarning, none)
  | some p =>
    if !pageTruthy p then (.error .userWarning, some p)
    else if event_handlers.truthy ehTruthy && event_names.truthy (fun s => s ≠ "") then
      (.error .userWarning, some p)
    else if event_handlers.truthy ehTruthy then
      let p' :=
        { p with
          event_handlers :=
            findUnmatchedEventHandlers p.event_handlers event_handlers.toList }
      (.ok p', some p')
    else if event_names.truthy (fun s => s ≠ "") then
      let p' :=
        { p with
          event_handlers :=
            findUnmatchedEventHandlersByName p.event_handlers event_names.toList }
      (.ok p', some p')
    else (.error .userWarning, some p)

/-- `PageBuilder.remove_transition_route_group` (pages.py lines 741-774).
`_is_type_or_list_of_types` rejects a `None` argument (it is neither a `str`
nor a list of `str`); for actual strings and lists it cannot fail in a typed
embedding. -/
def remove_transition_route_group (st : State)
    (transition_route_groups : PyArg String) : MethodResult State Page :=
  match st with
  | none => (.error .userWarning, none)
  | some p =>
    if !pageTruthy p then (.error .userWarning, some p)
    else if !transition_route_groups.isGiven then (.error .valueError, some p)
    else
      let trgs := transition_route_groups.toList
      let p' :=
        { p with
          transition_route_groups :=
            p.transition_route_groups.filter (fun trg => trg ∉ trgs) }
      (.ok p', some p')

end PageBuilder

namespace TRGBuilder

/-- Builder state for `TransitionRouteGroupBuilder`. -/
abbrev State := Option TransitionRouteGroup

/-- Modelled from the spec: constructor, as for `PageBuilder.init`. -/
def init (obj : Option TransitionRouteGroup) : State := obj

/-- `TransitionRouteGroupBuilder._create_new_proto_obj`
(transition_route_groups.py lines 62-115), also the body of
`create_new_transition_route_group` (lines 124-149). -/
def create_new_transition_route_group (st : State) (display_name : String)
    (transition_routes : PyArg TransitionRoute) (overwrite : Bool) :
    MethodResult State TransitionRouteGroup :=
  -- `if not (display_name and isinstance(display_name, str)): raise ValueError`
  if display_name = "" then (.error .valueError, st)
  -- the `transition_routes` isinstance check cannot fail in a typed embedding
  -- `if self.proto_obj and not overwrite: raise UserWarning`
  else if (match st with | none => false | some g => trgTruthy g) && !overwrite then
    (.error .userWarning, st)
  else if overwrite || !(match st with | none => false | some g => trgTruthy g) then
    -- `if not transition_routes: transition_routes = []` (truthiness!), then
    -- `if not isinstance(transition_routes, list): transition_routes = [...]`
    let trs : List TransitionRoute :=
      if transition_routes.truthy trTruthy then transition_routes.toList else []
    let trg : TransitionRouteGroup :=
      { display_name := display_name, transition_routes := trs }
    (.ok trg, some trg)
  else
    (.ok (st.getD {}), st)

/-- `TransitionRouteGroupBuilder.add_transition_route`
(transition_route_groups.py lines 151-233). -/
def add_transition_route (st : State) (transition_routes : PyArg TransitionRoute)
    (intent condition target_page target_flow : Option String)
    (trigger_fulfillment : Option Fulfillment) (agent_response : PyArg String)
    (parameter_map : Option (List (String × String))) :
    MethodResult State TransitionRouteGroup :=
  match st with
  | none => (.error .userWarning, none)
  | some g =>
    if !trgTruthy g then (.error .userWarning, some g)
    else
      let routes : Except Err (List TransitionRoute) :=
        if transition_routes.isGiven then .ok transition_routes.toList
        else
          match transitionRouteCreate intent condition trigger_fulfillment
              target_page target_flow with
          | .error e => .error e
          | .ok r =>
            .ok [if trigger_fulfillment = none then
                   transitionRouteSetFulfillment r agent_response parameter_map
                 else r]
      match routes with
      | .error e => (.error e, some g)
      | .ok rs =>
        let g' := { g with transition_routes := g.transition_routes ++ rs }
        (.ok g', some g')

/-- `TransitionRouteGroupBuilder.remove_transition_route`
(transition_route_groups.py lines 235-271). -/
def remove_transition_route (st : State)
    (transition_route : Option TransitionRoute)
    (intent condition : Option String) :
    MethodResult State TransitionRouteGroup :=
  match st with
  | none => (.error .userWarning, none)
  | some g =>
    if !trgTruthy g then (.error .userWarning, some g)
    else
      match removeRoutesLoop transition_route intent condition g.transition_routes with
      | .error e => (.error e, some g)
      | .ok new_routes =>
        let g' := { g with transition_routes := new_routes }
        (.ok g', some g')

end TRGBuilder

/-- The `PageStats` dataclass (pages.py lines 916-944); the page itself is
passed to the calculation functions explicitly. -/
structure PageStats where
  has_entry_fulfill : Bool := false
  parameters_count : Nat := 0
  parameters_with_event_handler_count : Nat := 0
  parameters_with_webhook_fulfill_count : Nat := 0
  parameters_ratio : ℚ := 0
  transition_routes_count : Nat := 0
  routes_with_fulfill_count : Nat := 0
  routes_with_webhook_fulfill_count : Nat := 0
  intent_routes_count : Nat := 0
  cond_routes_count : Nat := 0
  intent_and_cond_routes_count : Nat := 0
  event_handlers_count : Nat := 0
  events_with_fulfill_count : Nat := 0
  events_with_webhook_fulfill_count : Nat := 0
  transition_route_groups_count : Nat := 0
  deriving DecidableEq, Repr

/-- `if param.fill_behavior.reprompt_event_handlers:` — the parameter has a
non-empty reprompt event-handler collection. -/
def paramHasReprompt (param : Parameter) : Bool :=
  !param.fill_behavior.reprompt_event_handlers.isEmpty

/-- One iteration of the parameter loop of `calc_parameter_stats` (pages.py
lines 1023-1030). -/
def paramStatsStep (acc : PageStats) (param : Parameter) : PageStats :=
  let acc : PageStats :=
    if hasWebhook param.fill_behavior.initial_prompt_fulfillment then
      { acc with
        parameters_with_webhook_fulfill_count :=
          acc.parameters_with_webhook_fulfill_count + 1 }
    else acc
  if paramHasReprompt param then
    { acc with
      parameters_with_event_handler_count :=
        acc.parameters_with_event_handler_count + 1 }
  else acc

/-- `PageStats.calc_parameter_stats` (pages.py lines 1020-1035), as a
function from the page and the current stats record to the updated record.
Python's true division is modelled exactly in `ℚ`. -/
def calc_parameter_stats (page : Page) (s : PageStats) : PageStats :=
  let s : PageStats := { s with parameters_count := page.form.parameters.length }
  let s : PageStats := page.form.parameters.foldl paramStatsStep s
  if s.parameters_count ≠ 0 then
    { s with
      parameters_ratio :=
        (s.parameters_with_event_handler_count : ℚ) / (s.parameters_count : ℚ) }
  else s

/-! ## Pandas model

The fragment of pandas the entity-type reporting code exercises.  A data
frame is a column list plus rows of labelled cells.  `pd.concat` accepts only
`Series`/`DataFrame` objects and raises `TypeError` when handed anything else
(in particular a plain `dict`); `DataFrame.sort_values(by)` raises `KeyError`
when a requested key is not a column. -/

/-- A pandas `DataFrame`: the columns and the rows, each row a list of
(column, cell) pairs. -/
structure DataFrame where
  columns : List String := []
  rows : List (List (String × String)) := []
  deriving DecidableEq, Repr

/-- An object handed to `pd.concat`: a data frame or a plain Python dict. -/
inductive PdObj where
  | df (d : DataFrame)
  | dict (d : List (String × String))
  deriving DecidableEq, Repr

/-- `pd.concat(objs, ...)`: raises `TypeError` unless every element is a
`Series` or `DataFrame`; otherwise stacks the frames, the column set being
the union in order of first appearance. -/
def pdConcat (objs : List PdObj) : Except Err DataFrame :=
  if objs.any (fun o => match o with | .dict _ => true | .df _ => false) then
    .error .typeError
  else
    let dfs := objs.filterMap (fun o => match o with | .df d => some d | .dict _ => none)
    .ok (dfs.foldl (fun a b =>
      { columns := a.columns ++ b.columns.filter (fun c => c ∉ a.columns),
        rows := a.rows ++ b.rows }) {})

/-- The cell of a row under a column label (missing cells read as empty). -/
def rowCell (row : List (String × String)) (col : String) : String :=
  ((row.find? (fun kv => kv.1 = col)).map Prod.snd).getD ""

/-- Ordered insertion of a row by the lexicographic string key drawn from
`by_cols`. -/
def insertRowSorted (by_cols : List String) (row : List (String × String)) :
    List (List (String × String)) → List (List (String × String))
  | [] => [row]
  | r :: rs =>
    if by_cols.map (rowCell row) ≤ by_cols.map (rowCell r) then row :: r :: rs
    else r :: insertRowSorted by_cols row rs

/-- `DataFrame.sort_values(by)`: `KeyError` when a key is not a column, else
a stable ascending sort of the rows by the key tuple. -/
def sort_values (d : DataFrame) (by_cols : List String) : Except Err DataFrame :=
  if by_cols.all (fun c => d.columns.contains c) then
    .ok { d with rows := d.rows.foldl (fun acc r => insertRowSorted by_cols r acc) [] }
  else .error .keyError

/-! ## EntityTypes (core/entity_types.py)

The remote transport is passed in explicitly: `fetch`/`send` stand for the
generated RPC client calls, whose failures propagate unchanged. -/

/-- `types.EntityType.Entity`. -/
structure Entity where
  value : String := ""
  synonyms : List String := []
  deriving DecidableEq, Repr

/-- `types.EntityType` (kind and auto-expansion mode as raw enum values). -/
structure EntityType where
  name : String := ""
  display_name : String := ""
  kind : Nat := 0
  entities : List Entity := []
  excluded_phrases : List String := []
  enable_fuzzy_extraction : Bool := false
  redact : Bool := false
  auto_expansion_mode : Nat := 0
  deriving DecidableEq, Repr

/-- Proto-plus truthiness of an `EntityType`: any field set. -/
def etTruthy (et : EntityType) : Bool := decide (et ≠ ({} : EntityType))

/-- The inner synonym loop of `entity_type_proto_to_dataframe` in basic mode
(entity_types.py lines 76-82): every iteration executes
`pd.concat([main_df, entity_type_dict], ignore_index=True)` where
`entity_type_dict` is a plain dict. -/
def etBasicSynLoop (dn value : String) (mainDf : DataFrame) :
    List String → Except Err DataFrame
  | [] => .ok mainDf
  | syn :: rest =>
    match pdConcat [.df mainDf,
        .dict [("display_name", dn), ("entity_value", value), ("synonyms", syn)]] with
    | .error e => .error e
    | .ok d => etBasicSynLoop dn value d rest

/-- The outer entity loop of `entity_type_proto_to_dataframe` in basic mode
(entity_types.py lines 76-82). -/
def etBasicEntityLoop (dn : String) (mainDf : DataFrame) :
    List Entity → Except Err DataFrame
  | [] => .ok mainDf
  | ent :: rest =>
    match etBasicSynLoop dn ent.value mainDf ent.synonyms with
    | .error e => .error e
    | .ok d => etBasicEntityLoop dn d rest

/-- `EntityTypes.entity_type_proto_to_dataframe` with `mode="basic"`
(entity_types.py lines 58-83): starts from `pd.DataFrame()` and runs the
two nested loops. -/
def entity_type_proto_to_dataframe_basic (obj : EntityType) :
    Except Err DataFrame :=
  etBasicEntityLoop obj.display_name {} obj.entities

/-- The accumulation loop of `entity_types_to_df` with `mode="basic"`
(entity_types.py lines 142-152): skip entity types outside the (truthy)
subset, convert each to a frame, `pd.concat` it onto the accumulator. -/
def etToDfBasicLoop (subset : Option (List String)) (mainDf : DataFrame) :
    List EntityType → Except Err DataFrame
  | [] => .ok mainDf
  | obj :: rest =>
    -- `if entity_type_subset and obj.display_name not in entity_type_subset`
    if (subset.map (fun l => !l.isEmpty && !l.contains obj.display_name)).getD false then
      etToDfBasicLoop subset mainDf rest
    else
      match entity_type_proto_to_dataframe_basic obj with
      | .error e => .error e
      | .ok single =>
        match pdConcat [.df mainDf, .df single] with
        | .error e => .error e
        | .ok d => etToDfBasicLoop subset d rest

/-- `EntityTypes.entity_types_to_df` with `mode="basic"` (entity_types.py
lines 121-155).  The entity types returned by the remote
`list_entity_types` call are passed in as `entity_types`; after the loop the
frame is sorted with `sort_values(["display_name", "entity_value"])`. -/
def entity_types_to_df_basic (entity_types : List EntityType)
    (entity_type_subset : Option (List String)) : Except Err DataFrame :=
  match etToDfBasicLoop entity_type_subset {} entity_types with
  | .error e => .error e
  | .ok mainDf => sort_values mainDf ["display_name", "entity_value"]

/-- A value assigned through `setattr(entity_type, key, value)`. -/
inductive Val where
  | s (v : String)
  | b (v : Bool)
  | n (v : Nat)
  | ents (v : List Entity)
  | phrases (v : List String)
  deriving DecidableEq, Repr

/-- `setattr(entity_type, key, value)`: proto-plus assigns a known field of
the matching shape and raises for unknown attributes or mismatched shapes. -/
def setAttr (et : EntityType) (key : String) (v : Val) : Except Err EntityType :=
  match key, v with
  | "name", .s x => .ok { et with name := x }
  | "display_name", .s x => .ok { et with display_name := x }
  | "kind", .n x => .ok { et with kind := x }
  | "entities", .ents x => .ok { et with entities := x }
  | "excluded_phrases", .phrases x => .ok { et with excluded_phrases := x }
  | "enable_fuzzy_extraction", .b x => .ok { et with enable_fuzzy_extraction := x }
  | "redact", .b x => .ok { et with redact := x }
  | "auto_expansion_mode", .n x => .ok { et with auto_expansion_mode := x }
  | _, _ => .error .typeError

/-- `for key, value in kwargs.items(): setattr(entity_type, key, value)`,
keeping the attributes already assigned when a later assignment raises. -/
def setAttrsTrace (et : EntityType) :
    List (String × Val) → Except Err EntityType × EntityType
  | [] => (.ok et, et)
  | (k, v) :: rest =>
    match setAttr et k v with
    | .error e => (.error e, et)
    | .ok et' => setAttrsTrace et' rest

/-- `google.protobuf.field_mask_pb2.FieldMask`. -/
structure FieldMask where
  paths : List String := []
  deriving DecidableEq, Repr

/-- `types.entity_type.UpdateEntityTypeRequest`. -/
structure UpdateEntityTypeRequest where
  entity_type : EntityType := {}
  update_mask : FieldMask := {}
  language_code : String := ""
  deriving DecidableEq, Repr

/-- `types.entity_type.CreateEntityTypeRequest`. -/
structure CreateEntityTypeRequest where
  parent : String := ""
  entity_type : EntityType := {}
  language_code : String := ""
  deriving DecidableEq, Repr

/-- `if not x: x = self.y` resolution used for ids (`None` and `""` are
falsy). -/
def resolveId (given fallback : Option String) : Option String :=
  match given with
  | none => fallback
  | some s => if s = "" then fallback else some s

/-- The part of `EntityTypes.update_entity_type` (entity_types.py lines
311-362) up to and including building the request: resolve the entity type
(the caller's `obj` if truthy, else the one fetched by `get_entity_type`),
force its `name`, apply the kwargs, and build the request whose field mask
paths are the kwarg keys.  `fetch` stands for `get_entity_type`.  The second
component of the result is the caller-supplied object after the call:
assigning `entity_type.name = entity_type_id` and the `setattr` loop mutate
it in place.  Assigning `None` to the string `name` field raises a proto-plus
`TypeError`. -/
def update_entity_type_request (self_entity_id : Option String)
    (entity_type_id : Option String) (obj : Option EntityType)
    (language_code : Option String) (kwargs : List (String × Val))
    (fetch : String → Except Err EntityType) :
    MethodResult (Option EntityType) UpdateEntityTypeRequest :=
  if (obj.map etTruthy).getD false then
    match obj with
    | none => (.error .typeError, none)
    | some o =>
      match entity_type_id with
      | none => (.error .typeError, some o)
      | some tid =>
        let et0 : EntityType := { o with name := tid }
        match setAttrsTrace et0 kwargs with
        | (.error e, et1) => (.error e, some et1)
        | (.ok et2, _) =>
          (.ok { entity_type := et2, update_mask := { paths := kwargs.map Prod.fst },
                 language_code := language_code.getD "" }, some et2)
  else
    match resolveId entity_type_id self_entity_id with
    | none => (.error .remoteError, obj)
    | some tid =>
      match fetch tid with
      | .error e => (.error e, obj)
      | .ok et0 =>
        match setAttrsTrace et0 kwargs with
        | (.error e, _) => (.error e, obj)
        | (.ok et2, _) =>
          (.ok { entity_type := et2, update_mask := { paths := kwargs.map Prod.fst },
                 language_code := language_code.getD "" }, obj)

/-- `EntityTypes.update_entity_type` (entity_types.py lines 311-362): build
the request and send it; a transport failure propagates unchanged, leaving
the mutations already made to the caller's object in place. -/
def update_entity_type (self_entity_id : Option String)
    (entity_type_id : Option String) (obj : Option EntityType)
    (language_code : Option String) (kwargs : List (String × Val))
    (fetch : String → Except Err EntityType)
    (send : UpdateEntityTypeRequest → Except Err EntityType) :
    MethodResult (Option EntityType) EntityType :=
  match update_entity_type_request self_entity_id entity_type_id obj
      language_code kwargs fetch with
  | (.error e, s) => (.error e, s)
  | (.ok req, s) => (send req, s)

/-- `EntityTypes.create_entity_type` (entity_types.py lines 263-309).  When a
truthy `obj` is given, its `name` is cleared in place before anything else;
the kwargs are then applied to it, the request is built and sent.  The second
component is the caller-supplied object after the call. -/
def create_entity_type (self_agent_id : Option String)
    (agent_id : Option String) (obj : Option EntityType)
    (language_code : Option String) (kwargs : List (String × Val))
    (send : CreateEntityTypeRequest → Except Err EntityType) :
    MethodResult (Option EntityType) EntityType :=
  let aid := resolveId agent_id self_agent_id
  if (obj.map etTruthy).getD false then
    match obj with
    | none => (.error .typeError, none)
    | some o =>
      let et0 : EntityType := { o with name := "" }
      match setAttrsTrace et0 kwargs with
      | (.error e, et1) => (.error e, some et1)
      | (.ok et2, _) =>
        match aid with
        | none => (.error .typeError, some et2)
        | some a =>
          (send { parent := a, entity_type := et2,
                  language_code := language_code.getD "" }, some et2)
  else
    match setAttrsTrace ({} : EntityType) kwargs with
    | (.error e, _) => (.error e, obj)
    | (.ok et2, _) =>
      match aid with
      | none => (.error .typeError, obj)
      | some a =>
        (send { parent := a, entity_type := et2,
                language_code := language_code.getD "" }, obj)

/-- `EntityTypes.delete_entity_type` (entity_types.py lines 364-383).
`send_delete` stands for `client.delete_entity_type`; the second component of
the result records the id the remote delete was invoked with, `none` when no
client was built and no RPC issued. -/
def delete_entity_type (self_entity_id : Option String)
    (entity_id : Option String) (obj : Option EntityType)
    (send_delete : String → Except Err Unit) : Except Err Unit × Option String :=
  let eid := resolveId entity_id self_entity_id
  if (obj.map etTruthy).getD false then
    -- `entity_id = obj.name`, then fall through and return `None`
    (.ok (), none)
  else
    match eid with
    | none => (.error .typeError, none)
    | some i =>
      match send_delete i with
      | .error e => (.error e, some i)
      | .ok _ => (.ok (), some i)

/-! ## Shared lemmas -/

theorem matchTransitionRoute_eq_ok (tr : TransitionRoute)
    (tgt : Option TransitionRoute) (intentOpt condOpt : Option String)
    (h : criteriaGiven tgt intentOpt condOpt = true) :
    matchTransitionRoute tr tgt intentOpt condOpt =
      .ok (routeMatches tgt intentOpt condOpt tr) := by
  simp only [matchTransitionRoute, routeMatches, h, Bool.not_true,
    Bool.false_eq_true, if_false]

theorem criteriaGiven_of_match_ok (tr : TransitionRoute)
    (tgt : Option TransitionRoute) (intentOpt condOpt : Option String) (b : Bool)
    (h : matchTransitionRoute tr tgt intentOpt condOpt = .ok b) :
    criteriaGiven tgt intentOpt condOpt = true := by
  by_contra hn
  simp only [Bool.not_eq_true] at hn
  simp [matchTransitionRoute, hn] at h

theorem routeMatches_of_match_ok (tr : TransitionRoute)
    (tgt : Option TransitionRoute) (intentOpt condOpt : Option String) (b : Bool)
    (h : matchTransitionRoute tr tgt intentOpt condOpt = .ok b) :
    routeMatches tgt intentOpt condOpt tr = b := by
  simp [routeMatches, h]

theorem removeRoutesLoop_eq_filter (tgt : Option TransitionRoute)
    (intentOpt condOpt : Option String)
    (h : criteriaGiven tgt intentOpt condOpt = true) :
    ∀ l : List TransitionRoute,
      removeRoutesLoop tgt intentOpt condOpt l =
        .ok (l.filter (fun tr => !routeMatches tgt intentOpt condOpt tr)) := by
  intro l
  induction l with
  | nil => rfl
  | cons tr rest ih =>
    rw [removeRoutesLoop, matchTransitionRoute_eq_ok tr tgt intentOpt condOpt h]
    rcases hm : routeMatches tgt intentOpt condOpt tr with _ | _ <;>
      simp [List.filter, hm, ih]

theorem removeRoutesLoop_no_criteria (tgt : Option TransitionRoute)
    (intentOpt condOpt : Option String)
    (h : criteriaGiven tgt intentOpt condOpt = false)
    (tr : TransitionRoute) (rest : List TransitionRoute) :
    removeRoutesLoop tgt intentOpt condOpt (tr :: rest) = .error .userWarning := by
  rw [removeRoutesLoop]
  simp [matchTransitionRoute, h]

theorem foldl_paramStatsStep_parameters_count (l : List Parameter) :
    ∀ s : PageStats, (l.foldl paramStatsStep s).parameters_count = s.parameters_count := by
  induction l with
  | nil => intro s; rfl
  | cons hd tl ih =>
    intro s
    rw [List.foldl_cons, ih]
    simp only [paramStatsStep]
    split <;> split <;> rfl

theorem foldl_paramStatsStep_ratio (l : List Parameter) :
    ∀ s : PageStats, (l.foldl paramStatsStep s).parameters_ratio = s.parameters_ratio := by
  induction l with
  | nil => intro s; rfl
  | cons hd tl ih =>
    intro s
    rw [List.foldl_cons, ih]
    simp only [paramStatsStep]
    split <;> split <;> rfl

theorem foldl_paramStatsStep_eh_count (l : List Parameter) :
    ∀ s : PageStats,
      (l.foldl paramStatsStep s).parameters_with_event_handler_count =
        s.parameters_with_event_handler_count + (l.filter paramHasReprompt).length := by
  induction l with
  | nil => intro s; simp
  | cons hd tl ih =>
    intro s
    rw [List.foldl_cons, ih]
    have hstep : (paramStatsStep s hd).parameters_with_event_handler_count =
        s.parameters_with_event_handler_count +
          (if paramHasReprompt hd then 1 else 0) := by
      simp only [paramStatsStep]
      split <;> split <;> simp
    rw [hstep]
    rcases hr : paramHasReprompt hd with _ | _ <;>
      · simp [List.filter, hr]
        try omega

theorem setAttrsTrace_ok (l : List (String × Val)) :
    ∀ (et et' s : EntityType), setAttrsTrace et l = (.ok et', s) → s = et' := by
  induction l with
  | nil =>
    intro et et' s h
    rw [setAttrsTrace] at h
    injection h with h1 h2
    injection h1 with h1
    rw [← h2]
    exact h1
  | cons kv rest ih =>
    intro et et' s h
    rw [setAttrsTrace] at h
    rcases hset : setAttr et kv.1 kv.2 with e | et1
    · rw [hset] at h; exact absurd h (by simp)
    · rw [hset] at h; exact ih et1 et' s h

theorem calc_parameter_stats_count_eq (page : Page) (s : PageStats) :
    (calc_parameter_stats page s).parameters_count = page.form.parameters.length := by
  unfold calc_parameter_stats
  rcases hlen : page.form.parameters.length with _ | n <;>
    simp [foldl_paramStatsStep_parameters_count, hlen]

theorem calc_parameter_stats_ratio_eq (page : Page) :
    (calc_parameter_stats page {}).parameters_ratio =
      if page.form.parameters.length = 0 then 0
      else ((page.form.parameters.filter paramHasReprompt).length : ℚ) /
        (page.form.parameters.length : ℚ) := by
  unfold calc_parameter_stats
  rcases hlen : page.form.parameters.length with _ | n
  · simp [foldl_paramStatsStep_parameters_count, foldl_paramStatsStep_ratio, hlen]
  · simp only [foldl_paramStatsStep_parameters_count, foldl_paramStatsStep_eh_count,
      foldl_paramStatsStep_ratio, hlen]
    simp

theorem add_parameter_state_cases (st : PageBuilder.State) (dn et : String)
    (ipf : Option Fulfillment) (req : Bool) (dv : Option String) (il rd : Bool)
    (rehs : PyArg EventHandler) :
    (PageBuilder.add_parameter st dn et ipf req dv il rd rehs).2 = st ∨
      ∃ p', PageBuilder.add_parameter st dn et ipf req dv il rd rehs =
        (.ok p', some p') := by
  rcases st with _ | p
  · exact Or.inl rfl
  · simp only [PageBuilder.add_parameter]
    repeat' split
    all_goals first
      | exact Or.inl rfl
      | exact Or.inr ⟨_, rfl⟩

theorem add_parameter_ok_display_names (p : Page) (dn et : String)
    (ipf : Option Fulfillment) (req : Bool) (dv : Option String) (il rd : Bool)
    (rehs : PyArg EventHandler) (p' : Page)
    (h : (PageBuilder.add_parameter (some p) dn et ipf req dv il rd rehs).1 = .ok p') :
    p'.form.parameters.map Parameter.display_name =
      p.form.parameters.map Parameter.display_name ++ [dn] := by
  simp only [PageBuilder.add_parameter] at h
  repeat' split at h
  all_goals try simp_all
  all_goals (subst h; simp [List.map_append])

theorem pdConcat_df_empty (d : DataFrame) :
    pdConcat [.df d, .df ({} : DataFrame)] = .ok d := by
  simp [pdConcat]

theorem etBasicSynLoop_ok_eq (dn v : String) (syns : List String) :
    ∀ (d d' : DataFrame), etBasicSynLoop dn v d syns = .ok d' → d' = d := by
  cases syns with
  | nil =>
    intro d d' h
    rw [etBasicSynLoop] at h
    injection h with h
    rw [h]
  | cons syn rest =>
    intro d d' h
    rw [etBasicSynLoop] at h
    simp [pdConcat] at h

theorem etBasicEntityLoop_ok_eq (dn : String) (ents : List Entity) :
    ∀ (d d' : DataFrame), etBasicEntityLoop dn d ents = .ok d' → d' = d := by
  induction ents with
  | nil =>
    intro d d' h
    rw [etBasicEntityLoop] at h
    injection h with h
    rw [h]
  | cons ent rest ih =>
    intro d d' h
    rw [etBasicEntityLoop] at h
    rcases hs : etBasicSynLoop dn ent.value d ent.synonyms with e | d2
    · rw [hs] at h; exact absurd h (by simp)
    · rw [hs] at h
      rw [ih d2 d' h, etBasicSynLoop_ok_eq dn ent.value ent.synonyms d d2 hs]

theorem etToDfBasicLoop_ok_eq (subset : Option (List String))
    (ets : List EntityType) :
    ∀ (d d' : DataFrame), etToDfBasicLoop subset d ets = .ok d' → d' = d := by
  induction ets with
  | nil =>
    intro d d' h
    rw [etToDfBasicLoop] at h
    injection h with h
    rw [h]
  | cons obj rest ih =>
    intro d d' h
    rw [etToDfBasicLoop] at h
    split at h
    · exact ih d d' h
    · rcases hp : entity_type_proto_to_dataframe_basic obj with e | single
      · rw [hp] at h; exact absurd h (by simp)
      · rw [hp] at h
        dsimp only at h
        have hsingle : single = ({} : DataFrame) :=
          etBasicEntityLoop_ok_eq obj.display_name obj.entities {} single hp
        rw [hsingle, pdConcat_df_empty d] at h
        dsimp only at h
        exact ih d d' h

/-! ## Claims -/

/-- C1 counterexample: a `PageBuilder` whose `proto_obj` holds an all-default
`Page` object (reachable by passing `Page()` to the constructor).  The claim
says `create_new_page` with `overwrite=False` raises a state-precondition
error and leaves the held object unchanged; instead the call succeeds and
replaces the held object, because `if self.proto_obj` tests proto-plus
truthiness and an all-default message is falsy. -/
theorem c1_create_overwrite_counterexample :
    PageBuilder.init (some ({} : Page)) = some ({} : Page) ∧
    PageBuilder.create_new_page (some ({} : Page)) "Collect Email" none false =
      (.ok { display_name := "Collect Email" },
       some { display_name := "Collect Email" }) ∧
    some ({} : Page) ≠ some ({ display_name := "Collect Email" } : Page) :=
  ⟨rfl, rfl, by decide⟩

/-- C1 (amended): for a `PageBuilder` or `TransitionRouteGroupBuilder` whose
`proto_obj` holds a truthy (not all-default) object, the create operation
called with a non-empty display name and `overwrite=False` raises the
state-precondition `UserWarning` and leaves the held object unchanged; called
with `overwrite=True` and a non-empty display name it fully replaces the held
object with a freshly constructed one carrying the given display name and the
seed content (a fulfillment seed as given, a route-list seed verbatim, a
single truthy route seed wrapped in a list; a falsy seed is treated as
absent). -/
theorem c1_create_overwrite_amended :
    (∀ (p : Page) (dn : String) (ef : Option Fulfillment),
      pageTruthy p = true → dn ≠ "" →
      PageBuilder.create_new_page (some p) dn ef false =
        (.error .userWarning, some p)) ∧
    (∀ (st : PageBuilder.State) (dn : String) (ef : Option Fulfillment),
      dn ≠ "" →
      PageBuilder.create_new_page st dn ef true =
        (.ok { display_name := dn, entry_fulfillment := ef.getD {} },
         some { display_name := dn, entry_fulfillment := ef.getD {} })) ∧
    (∀ (g : TransitionRouteGroup) (dn : String) (trs : PyArg TransitionRoute),
      trgTruthy g = true → dn ≠ "" →
      TRGBuilder.create_new_transition_route_group (some g) dn trs false =
        (.error .userWarning, some g)) ∧
    (∀ (st : TRGBuilder.State) (dn : String) (l : List TransitionRoute),
      dn ≠ "" →
      TRGBuilder.create_new_transition_route_group st dn (.list l) true =
        (.ok { display_name := dn, transition_routes := l },
         some { display_name := dn, transition_routes := l })) ∧
    (∀ (st : TRGBuilder.State) (dn : String) (tr : TransitionRoute),
      dn ≠ "" → trTruthy tr = true →
      TRGBuilder.create_new_transition_route_group st dn (.single tr) true =
        (.ok { display_name := dn, transition_routes := [tr] },
         some { display_name := dn, transition_routes := [tr] })) := by
  refine ⟨?_, ?_, ?_, ?_, ?_⟩
  · intro p dn ef hp hdn
    simp [PageBuilder.create_new_page, hdn, hp]
  · intro st dn ef hdn
    simp [PageBuilder.create_new_page, hdn]
  · intro g dn trs hg hdn
    simp [TRGBuilder.create_new_transition_route_group, hdn, hg]
  · intro st dn l hdn
    rcases l with _ | ⟨tr, rest⟩ <;>
      simp [TRGBuilder.create_new_transition_route_group, hdn, PyArg.truthy,
        PyArg.toList]
  · intro st dn tr hdn htr
    simp [TRGBuilder.create_new_transition_route_group, hdn, PyArg.truthy,
      PyArg.toList, htr]

/-- C1 witness: the amended theorem applied to a builder holding the page
`{display_name := "A"}`. -/
theorem c1_create_overwrite_witness :
    PageBuilder.create_new_page (some { display_name := "A" }) "B" none false =
      (.error .userWarning, some { display_name := "A" }) ∧
    PageBuilder.create_new_page (some { display_name := "A" }) "B" none true =
      (.ok { display_name := "B" }, some { display_name := "B" }) :=
  ⟨c1_create_overwrite_amended.1 { display_name := "A" } "B" none (by decide)
      (by decide),
   c1_create_overwrite_amended.2.1 (some { display_name := "A" }) "B" none
      (by decide)⟩

/-- C2 counterexample: `update_entity_type` given a pre-built object assigns
`entity_type.name = entity_type_id` (mutating the caller's object in place)
before the remote call; when the remote call fails, the call raises but the
caller-supplied object is left with the new name — not "exactly as it was
before the call". -/
theorem c2_no_partial_mutation_counterexample :
    update_entity_type none (some "new-id")
        (some { name := "old-name", display_name := "color" }) none []
        (fun _ => .error .remoteError) (fun _ => .error .remoteError) =
      (.error .remoteError, some { name := "new-id", display_name := "color" }) ∧
    ({ name := "new-id", display_name := "color" } : EntityType) ≠
      { name := "old-name", display_name := "color" } :=
  ⟨rfl, by decide⟩

/-- C2 (amended): builder operations validate before mutating — a failing
`add_parameter` call leaves the builder state exactly as it was; the remote
wrappers, however, mutate the caller-supplied truthy object before issuing
the remote call (`update_entity_type` sets its name to the target id,
`create_entity_type` clears its name), so on remote failure the supplied
object keeps those mutations. -/
theorem c2_no_partial_mutation_amended :
    (∀ (st : PageBuilder.State) (dn et : String) (ipf : Option Fulfillment)
       (req : Bool) (dv : Option String) (il rd : Bool)
       (rehs : PyArg EventHandler) (e : Err),
      (PageBuilder.add_parameter st dn et ipf req dv il rd rehs).1 = .error e →
      (PageBuilder.add_parameter st dn et ipf req dv il rd rehs).2 = st) ∧
    (∀ (tid : String) (o : EntityType) (lc : Option String)
       (fetch : String → Except Err EntityType),
      etTruthy o = true →
      update_entity_type none (some tid) (some o) lc [] fetch
          (fun _ => .error .remoteError) =
        (.error .remoteError, some { o with name := tid })) ∧
    (∀ (a : String) (o : EntityType) (lc : Option String),
      a ≠ "" → etTruthy o = true →
      create_entity_type none (some a) (some o) lc []
          (fun _ => .error .remoteError) =
        (.error .remoteError, some { o with name := "" })) := by
  refine ⟨?_, ?_, ?_⟩
  · intro st dn et ipf req dv il rd rehs e h
    rcases add_parameter_state_cases st dn et ipf req dv il rd rehs with
      h2 | ⟨p', hok⟩
    · exact h2
    · rw [hok] at h
      exact absurd h (by simp)
  · intro tid o lc fetch ho
    simp [update_entity_type, update_entity_type_request, setAttrsTrace, ho]
  · intro a o lc ha ho
    simp [create_entity_type, resolveId, setAttrsTrace, ha, ho]

/-- C2 witness: the amended theorem applied to a failing `add_parameter`
call (empty display name) and to an `update_entity_type` call with a failing
transport. -/
theorem c2_no_partial_mutation_witness :
    (PageBuilder.add_parameter (some { display_name := "P" }) "" "sys.email"
        (some { messages := ["m"] }) true none false false .absent).2 =
      some { display_name := "P" } ∧
    update_entity_type none (some "new-id") (some { display_name := "color" })
        none [] (fun _ => .error .remoteError) (fun _ => .error .remoteError) =
      (.error .remoteError, some { name := "new-id", display_name := "color" }) :=
  ⟨c2_no_partial_mutation_amended.1 (some { display_name := "P" }) "" "sys.email"
      (some { messages := ["m"] }) true none false false .absent Err.valueError
      (by rfl),
   c2_no_partial_mutation_amended.2.1 "new-id" { display_name := "color" } none
      (fun _ => .error .remoteError) (by decide)⟩

/-- C3: for every Page or TransitionRouteGroup held in a builder and every
transition route `r` appended by `add_transition_route`, a subsequent
`remove_transition_route` with any criteria subset (exact route object,
intent and/or condition) that matches `r` and matches no route present before
the add restores the transition-route collection — indeed the whole held
object — exactly to its state before the add. -/
theorem c3_add_remove_inverse :
    (∀ (p : Page) (r : TransitionRoute) (tgt : Option TransitionRoute)
       (intentOpt condOpt : Option String),
      pageTruthy p = true →
      matchTransitionRoute r tgt intentOpt condOpt = .ok true →
      (∀ r' ∈ p.transition_routes,
        matchTransitionRoute r' tgt intentOpt condOpt = .ok false) →
      PageBuilder.add_transition_route (some p) (.single r) none none none none
          none .absent none =
        (.ok { p with transition_routes := p.transition_routes ++ [r] },
         some { p with transition_routes := p.transition_routes ++ [r] }) ∧
      PageBuilder.remove_transition_route
          (some { p with transition_routes := p.transition_routes ++ [r] })
          tgt intentOpt condOpt =
        (.ok p, some p)) ∧
    (∀ (g : TransitionRouteGroup) (r : TransitionRoute)
       (tgt : Option TransitionRoute) (intentOpt condOpt : Option String),
      trgTruthy g = true →
      matchTransitionRoute r tgt intentOpt condOpt = .ok true →
      (∀ r' ∈ g.transition_routes,
        matchTransitionRoute r' tgt intentOpt condOpt = .ok false) →
      TRGBuilder.add_transition_route (some g) (.single r) none none none none
          none .absent none =
        (.ok { g with transition_routes := g.transition_routes ++ [r] },
         some { g with transition_routes := g.transition_routes ++ [r] }) ∧
      TRGBuilder.remove_transition_route
          (some { g with transition_routes := g.transition_routes ++ [r] })
          tgt intentOpt condOpt =
        (.ok g, some g)) := by
  have hfilter : ∀ (routes : List TransitionRoute) (r : TransitionRoute)
      (tgt : Option TransitionRoute) (intentOpt condOpt : Option String),
      matchTransitionRoute r tgt intentOpt condOpt = .ok true →
      (∀ r' ∈ routes, matchTransitionRoute r' tgt intentOpt condOpt = .ok false) →
      (routes ++ [r]).filter (fun tr => !routeMatches tgt intentOpt condOpt tr) =
        routes := by
    intro routes r tgt intentOpt condOpt hmatch hall
    rw [List.filter_append]
    have h1 : routes.filter (fun tr => !routeMatches tgt intentOpt condOpt tr) =
        routes := by
      rw [List.filter_eq_self]
      intro tr htr
      rw [routeMatches_of_match_ok tr tgt intentOpt condOpt false (hall tr htr)]
      rfl
    have h2 : [r].filter (fun tr => !routeMatches tgt intentOpt condOpt tr) =
        [] := by
      simp [List.filter,
        routeMatches_of_match_ok r tgt intentOpt condOpt true hmatch]
    rw [h1, h2, List.append_nil]
  constructor
  · intro p r tgt intentOpt condOpt hp hmatch hall
    have hgiven : criteriaGiven tgt intentOpt condOpt = true :=
      criteriaGiven_of_match_ok r tgt intentOpt condOpt true hmatch
    constructor
    · simp [PageBuilder.add_transition_route, hp, PyArg.isGiven, PyArg.toList]
    · have hp' : pageTruthy
          { p with transition_routes := p.transition_routes ++ [r] } = true := by
        simp only [pageTruthy, decide_eq_true_eq]
        intro hEq
        have := congrArg Page.transition_routes hEq
        simp at this
      simp only [PageBuilder.remove_transition_route, hp', Bool.not_true,
        Bool.false_eq_true, if_false]
      rw [removeRoutesLoop_eq_filter tgt intentOpt condOpt hgiven]
      rw [hfilter p.transition_routes r tgt intentOpt condOpt hmatch hall]
  · intro g r tgt intentOpt condOpt hg hmatch hall
    have hgiven : criteriaGiven tgt intentOpt condOpt = true :=
      criteriaGiven_of_match_ok r tgt intentOpt condOpt true hmatch
    constructor
    · simp [TRGBuilder.add_transition_route, hg, PyArg.isGiven, PyArg.toList]
    · have hg' : trgTruthy
          { g with transition_routes := g.transition_routes ++ [r] } = true := by
        simp only [trgTruthy, decide_eq_true_eq]
        intro hEq
        have := congrArg TransitionRouteGroup.transition_routes hEq
        simp at this
      simp only [TRGBuilder.remove_transition_route, hg', Bool.not_true,
        Bool.false_eq_true, if_false]
      rw [removeRoutesLoop_eq_filter tgt intentOpt condOpt hgiven]
      rw [hfilter g.transition_routes r tgt intentOpt condOpt hmatch hall]

/-- C3 witness: a page holding one route with intent `"i-old"`, the route
`{intent := "i-new"}` added and then removed by the intent criterion. -/
theorem c3_add_remove_inverse_witness :
    PageBuilder.add_transition_route
        (some { display_name := "P",
                transition_routes := [{ intent := "i-old" }] })
        (.single { intent := "i-new" }) none none none none none .absent none =
      (.ok { display_name := "P",
             transition_routes := [{ intent := "i-old" }, { intent := "i-new" }] },
       some { display_name := "P",
              transition_routes := [{ intent := "i-old" }, { intent := "i-new" }] }) ∧
    PageBuilder.remove_transition_route
        (some { display_name := "P",
                transition_routes := [{ intent := "i-old" }, { intent := "i-new" }] })
        none (some "i-new") none =
      (.ok { display_name := "P", transition_routes := [{ intent := "i-old" }] },
       some { display_name := "P",
              transition_routes := [{ intent := "i-old" }] }) :=
  c3_add_remove_inverse.1
    { display_name := "P", transition_routes := [{ intent := "i-old" }] }
    { intent := "i-new" } none (some "i-new") none (by decide) (by decide)
    (by decide)

/-- C4: for every Page, the PageStats parameter ratio equals 0 when the Page
has zero form parameters, and otherwise equals the number of parameters whose
fill behavior has a non-empty reprompt event-handler collection divided by
the total parameter count; in particular the Page built with display name
`"Collect Email"` and one required parameter `"email"` of entity type
`"sys.email"` with no reprompt handlers yields ratio 0 and parameter
count 1. -/
theorem c4_parameter_ratio :
    (∀ page : Page,
      (calc_parameter_stats page {}).parameters_count =
        page.form.parameters.length ∧
      (calc_parameter_stats page {}).parameters_ratio =
        if page.form.parameters.length = 0 then 0
        else ((page.form.parameters.filter paramHasReprompt).length : ℚ) /
          (page.form.parameters.length : ℚ)) ∧
    (calc_parameter_stats ((PageBuilder.add_parameter
        (PageBuilder.create_new_page none "Collect Email" none false).2
        "email" "sys.email" (some { messages := ["What is your email?"] })
        true none false false .absent).2.getD {}) {}).parameters_count = 1 ∧
    (calc_parameter_stats ((PageBuilder.add_parameter
        (PageBuilder.create_new_page none "Collect Email" none false).2
        "email" "sys.email" (some { messages := ["What is your email?"] })
        true none false false .absent).2.getD {}) {}).parameters_ratio = 0 := by
  refine ⟨fun page => ⟨calc_parameter_stats_count_eq page {},
    calc_parameter_stats_ratio_eq page⟩, by rfl, ?_⟩
  rw [calc_parameter_stats_ratio_eq]
  rw [show ((PageBuilder.add_parameter
        (PageBuilder.create_new_page none "Collect Email" none false).2
        "email" "sys.email" (some { messages := ["What is your email?"] })
        true none false false .absent).2.getD {}).form.parameters.length = 1
      from rfl]
  rw [show (((PageBuilder.add_parameter
        (PageBuilder.create_new_page none "Collect Email" none false).2
        "email" "sys.email" (some { messages := ["What is your email?"] })
        true none false false .absent).2.getD {}).form.parameters.filter
          paramHasReprompt).length = 0 from rfl]
  norm_num

/-- C5 counterexample: `add_parameter` never checks the new display name
against the parameters already in the form; adding `"email"` twice yields a
form whose parameter display names are `["email", "email"]`, violating the
claimed uniqueness invariant. -/
theorem c5_unique_display_names_counterexample :
    ((PageBuilder.add_parameter
        ((PageBuilder.add_parameter (some { display_name := "P" }) "email"
            "sys.email" (some { messages := ["m"] }) true none false false
            .absent).2)
        "email" "sys.email" (some { messages := ["m"] }) true none false false
        .absent).2.map
      (fun p => p.form.parameters.map Parameter.display_name)) =
      some ["email", "email"] := by
  rfl

/-- C5 (amended): `add_parameter` appends the new parameter unconditionally,
so it preserves display-name uniqueness exactly when the added display name
is not already present in the form. -/
theorem c5_unique_display_names_amended :
    ∀ (p : Page) (dn et : String) (ipf : Option Fulfillment) (req : Bool)
      (dv : Option String) (il rd : Bool) (rehs : PyArg EventHandler) (p' : Page),
      (p.form.parameters.map Parameter.display_name).Nodup →
      dn ∉ p.form.parameters.map Parameter.display_name →
      (PageBuilder.add_parameter (some p) dn et ipf req dv il rd rehs).1 =
        .ok p' →
      (p'.form.parameters.map Parameter.display_name).Nodup := by
  intro p dn et ipf req dv il rd rehs p' hnodup hdn hok
  rw [add_parameter_ok_display_names p dn et ipf req dv il rd rehs p' hok]
  rw [List.nodup_append]
  refine ⟨hnodup, List.nodup_singleton dn, ?_⟩
  intro a ha hb
  rw [List.mem_singleton] at hb
  subst hb
  exact hdn ha

/-- C5 witness: the amended theorem applied to adding a fresh parameter
`"email"` to a page with no parameters. -/
theorem c5_unique_display_names_witness :
    ((((PageBuilder.add_parameter (some { display_name := "Collect Email" })
        "email" "sys.email" (some { messages := ["m"] }) true none false false
        .absent).2.getD {}).form.parameters.map Parameter.display_name)).Nodup :=
  c5_unique_display_names_amended { display_name := "Collect Email" } "email"
    "sys.email" (some { messages := ["m"] }) true none false false .absent
    ((PageBuilder.add_parameter (some { display_name := "Collect Email" })
        "email" "sys.email" (some { messages := ["m"] }) true none false false
        .absent).2.getD {}) (by simp) (by simp) (by rfl)

/-- C6 counterexample: `remove_transition_route` with no criterion at all on
a page whose transition-route collection is empty returns successfully (the
criteria check lives inside the per-route matcher, which is never reached on
an empty collection), instead of failing with an error as claimed. -/
theorem c6_remove_no_criteria_counterexample :
    PageBuilder.remove_transition_route (some { display_name := "P" })
        none none none =
      (.ok { display_name := "P" }, some { display_name := "P" }) := by
  rfl

/-- C6 (amended): with no removal criterion supplied, `remove_parameter` and
`remove_event_handler` always fail with an error and remove nothing;
`remove_transition_route` (on Page and on TransitionRouteGroup) fails with an
error and removes nothing whenever the route collection is non-empty, while
on an empty collection it returns successfully with the collection (and the
whole held object) unchanged. -/
theorem c6_remove_no_criteria_amended :
    (∀ (p : Page) (d : PyArg String),
      pageTruthy p = true → d.truthy (fun s => s ≠ "") = false →
      PageBuilder.remove_parameter (some p) d = (.error .valueError, some p)) ∧
    (∀ (p : Page) (ehArg : PyArg EventHandler) (nmArg : PyArg String),
      pageTruthy p = true → ehArg.truthy ehTruthy = false →
      nmArg.truthy (fun s => s ≠ "") = false →
      PageBuilder.remove_event_handler (some p) ehArg nmArg =
        (.error .userWarning, some p)) ∧
    (∀ p : Page, pageTruthy p = true → p.transition_routes ≠ [] →
      PageBuilder.remove_transition_route (some p) none none none =
        (.error .userWarning, some p)) ∧
    (∀ p : Page, pageTruthy p = true → p.transition_routes = [] →
      PageBuilder.remove_transition_route (some p) none none none =
        (.ok p, some p)) ∧
    (∀ g : TransitionRouteGroup, trgTruthy g = true → g.transition_routes ≠ [] →
      TRGBuilder.remove_transition_route (some g) none none none =
        (.error .userWarning, some g)) ∧
    (∀ g : TransitionRouteGroup, trgTruthy g = true → g.transition_routes = [] →
      TRGBuilder.remove_transition_route (some g) none none none =
        (.ok g, some g)) := by
  have hnone : criteriaGiven none none none = false := rfl
  refine ⟨?_, ?_, ?_, ?_, ?_, ?_⟩
  · intro p d hp hd
    have hd' : d.truthy (fun s => !decide (s = "")) = false := by
      simpa using hd
    simp [PageBuilder.remove_parameter, hp, hd']
  · intro p ehArg nmArg hp he hn
    have hn' : nmArg.truthy (fun s => !decide (s = "")) = false := by
      simpa using hn
    simp [PageBuilder.remove_event_handler, hp, he, hn']
  · intro p hp hne
    rcases hroutes : p.transition_routes with _ | ⟨tr, rest⟩
    · exact absurd hroutes hne
    · simp only [PageBuilder.remove_transition_route, hp, Bool.not_true,
        Bool.false_eq_true, if_false]
      rw [hroutes, removeRoutesLoop_no_criteria none none none hnone tr rest]
  · intro p hp hroutes
    simp only [PageBuilder.remove_transition_route, hp, Bool.not_true,
      Bool.false_eq_true, if_false]
    have hloop : removeRoutesLoop none none none p.transition_routes =
        .ok p.transition_routes := by
      rw [hroutes]
      rfl
    rw [hloop]
  · intro g hg hne
    rcases hroutes : g.transition_routes with _ | ⟨tr, rest⟩
    · exact absurd hroutes hne
    · simp only [TRGBuilder.remove_transition_route, hg, Bool.not_true,
        Bool.false_eq_true, if_false]
      rw [hroutes, removeRoutesLoop_no_criteria none none none hnone tr rest]
  · intro g hg hroutes
    simp only [TRGBuilder.remove_transition_route, hg, Bool.not_true,
      Bool.false_eq_true, if_false]
    have hloop : removeRoutesLoop none none none g.transition_routes =
        .ok g.transition_routes := by
      rw [hroutes]
      rfl
    rw [hloop]

/-- C6 witness: the amended theorem applied to a page with one parameter, one
event handler and one transition route. -/
theorem c6_remove_no_criteria_witness :
    PageBuilder.remove_parameter (some { display_name := "P" }) .absent =
      (.error .valueError, some { display_name := "P" }) ∧
    PageBuilder.remove_event_handler (some { display_name := "P" })
        .absent .absent =
      (.error .userWarning, some { display_name := "P" }) ∧
    PageBuilder.remove_transition_route
        (some { display_name := "P",
                transition_routes := [{ intent := "i" }] }) none none none =
      (.error .userWarning,
       some { display_name := "P", transition_routes := [{ intent := "i" }] }) :=
  ⟨c6_remove_no_criteria_amended.1 { display_name := "P" } .absent (by decide)
      (by decide),
   c6_remove_no_criteria_amended.2.1 { display_name := "P" } .absent .absent
      (by decide) (by decide) (by decide),
   c6_remove_no_criteria_amended.2.2.1
      { display_name := "P", transition_routes := [{ intent := "i" }] }
      (by decide) (by decide)⟩

/-- C7: whenever a `remove_*` operation is given criteria, it removes every
element of the held collection matching the criteria by exact structural
equality on the specified fields — all matches, not just the first — and
keeps every non-matching element in its original relative order: the
resulting collection is exactly the `List.filter` of the original by the
negated match predicate. -/
theorem c7_remove_matches_filter :
    (∀ (p : Page) (names : List String),
      pageTruthy p = true → names ≠ [] →
      PageBuilder.remove_parameter (some p) (.list names) =
        (.ok { p with form := { parameters := p.form.parameters.filter (fun param => param.display_name ∉ names) } },
         some { p with form := { parameters := p.form.parameters.filter (fun param => param.display_name ∉ names) } })) ∧
    (∀ (p : Page) (tgt : Option TransitionRoute)
       (intentOpt condOpt : Option String),
      pageTruthy p = true → criteriaGiven tgt intentOpt condOpt = true →
      PageBuilder.remove_transition_route (some p) tgt intentOpt condOpt =
        (.ok { p with transition_routes := p.transition_routes.filter (fun tr => !routeMatches tgt intentOpt condOpt tr) },
         some { p with transition_routes := p.transition_routes.filter (fun tr => !routeMatches tgt intentOpt condOpt tr) })) ∧
    (∀ (p : Page) (trgs : List String),
      pageTruthy p = true →
      PageBuilder.remove_transition_route_group (some p) (.list trgs) =
        (.ok { p with transition_route_groups := p.transition_route_groups.filter (fun trg => trg ∉ trgs) },
         some { p with transition_route_groups := p.transition_route_groups.filter (fun trg => trg ∉ trgs) })) := by
  refine ⟨?_, ?_, ?_⟩
  · intro p names hp hnames
    have ht : (PyArg.list names).truthy (fun s => !decide (s = "")) = true := by
      simp [PyArg.truthy, hnames]
    simp [PageBuilder.remove_parameter, hp, ht, PyArg.toList]
  · intro p tgt intentOpt condOpt hp hgiven
    simp only [PageBuilder.remove_transition_route, hp, Bool.not_true,
      Bool.false_eq_true, if_false]
    rw [removeRoutesLoop_eq_filter tgt intentOpt condOpt hgiven]
  · intro p trgs hp
    simp [PageBuilder.remove_transition_route_group, hp, PyArg.isGiven,
      PyArg.toList]

/-- C7 witness: removal of two duplicate parameters `"a"` (both removed, the
`"b"` in between kept) and removal of a route by condition. -/
theorem c7_remove_matches_filter_witness :
    PageBuilder.remove_parameter
        (some { display_name := "P",
                form := { parameters := [{ display_name := "a" },
                                         { display_name := "b" },
                                         { display_name := "a" }] } })
        (.list ["a"]) =
      (.ok { display_name := "P",
             form := { parameters := [{ display_name := "b" }] } },
       some { display_name := "P",
              form := { parameters := [{ display_name := "b" }] } }) ∧
    PageBuilder.remove_transition_route
        (some { display_name := "P",
                transition_routes := [{ condition := "c1" },
                                      { condition := "c2" }] })
        none none (some "c1") =
      (.ok { display_name := "P",
             transition_routes := [{ condition := "c2" }] },
       some { display_name := "P",
              transition_routes := [{ condition := "c2" }] }) := by
  constructor
  · have h := c7_remove_matches_filter.1
      { display_name := "P",
        form := { parameters := [{ display_name := "a" },
                                 { display_name := "b" },
                                 { display_name := "a" }] } }
      ["a"] (by decide) (by decide)
    rw [h]
    rfl
  · have h := c7_remove_matches_filter.2.1
      { display_name := "P",
        transition_routes := [{ condition := "c1" }, { condition := "c2" }] }
      none none (some "c1") (by decide) (by decide)
    rw [h]
    rfl

/-- C8 (code bug): the claim says `entity_types_to_df(mode="basic")` returns
a table sorted by `(display_name, entity_value)`; the code can never return a
table at all.  The basic-mode loop of `entity_type_proto_to_dataframe` passes
a plain Python dict to `pd.concat`, which raises `TypeError` as soon as any
entity type has an entity with a synonym; and when no row is ever produced,
the final `sort_values(["display_name", "entity_value"])` raises `KeyError`
because the empty frame has no such columns.  So for every input list and
every subset filter the call raises. -/
theorem c8_basic_df_always_raises :
    (∀ (ets : List EntityType) (subset : Option (List String)),
      ∃ e, entity_types_to_df_basic ets subset = .error e) ∧
    entity_type_proto_to_dataframe_basic
        { display_name := "color",
          entities := [{ value := "red", synonyms := ["crimson"] }] } =
      .error .typeError := by
  constructor
  · intro ets subset
    unfold entity_types_to_df_basic
    rcases hl : etToDfBasicLoop subset {} ets with e | d
    · exact ⟨e, rfl⟩
    · have hd : d = ({} : DataFrame) := etToDfBasicLoop_ok_eq subset ets {} d hl
      subst hd
      exact ⟨.keyError, rfl⟩
  · rfl

/-- C9 counterexample: `update_entity_type` given a pre-built but all-default
(falsy) `EntityType` object ignores it entirely — `if obj:` is false, so the
entity is fetched from the server instead, the supplied object's name is
never set to the target id, and the request carries the fetched entity. -/
theorem c9_update_mask_counterexample :
    update_entity_type_request none (some "tid") (some ({} : EntityType)) none
        [] (fun _ => .ok { name := "server-name" }) =
      (.ok { entity_type := { name := "server-name" },
             update_mask := { paths := [] } },
       some ({} : EntityType)) ∧
    ({ name := "server-name" } : EntityType).name ≠ "tid" :=
  ⟨rfl, by decide⟩

/-- C9 (amended): the update request's field-mask paths are exactly the
keyword-argument names supplied by the caller, in order, in every successful
call; and when the supplied object is truthy, the request's entity type is
the caller's object with its name first forced to the target id and the
kwargs then applied to it (the caller's object is mutated to that same
value); a falsy supplied object is ignored and the entity is fetched
instead. -/
theorem c9_update_mask_amended :
    (∀ (selfId tid : Option String) (obj : Option EntityType)
       (lc : Option String) (kwargs : List (String × Val))
       (fetch : String → Except Err EntityType)
       (req : UpdateEntityTypeRequest) (s : Option EntityType),
      update_entity_type_request selfId tid obj lc kwargs fetch = (.ok req, s) →
      req.update_mask.paths = kwargs.map Prod.fst) ∧
    (∀ (selfId : Option String) (tid : String) (o : EntityType)
       (lc : Option String) (kwargs : List (String × Val))
       (fetch : String → Except Err EntityType)
       (req : UpdateEntityTypeRequest) (s : Option EntityType),
      etTruthy o = true →
      update_entity_type_request selfId (some tid) (some o) lc kwargs fetch =
        (.ok req, s) →
      setAttrsTrace { o with name := tid } kwargs =
        (.ok req.entity_type, req.entity_type) ∧
      s = some req.entity_type) := by
  constructor
  · intro selfId tid obj lc kwargs fetch req s h
    unfold update_entity_type_request at h
    try dsimp only at h
    repeat' split at h
    all_goals (
      injection h with h1 h2
      first
        | (injection h1; done)
        | (injection h1 with h1; subst h1; rfl))
  · intro selfId tid o lc kwargs fetch req s ho h
    have hcond : (Option.map etTruthy (some o)).getD false = true := by
      simpa using ho
    rw [update_entity_type_request, if_pos hcond] at h
    dsimp only at h
    rcases hsa : setAttrsTrace { o with name := tid } kwargs with ⟨r, et1⟩
    rw [hsa] at h
    rcases r with e | et2
    · exact absurd h (by simp)
    · injection h with h1 h2
      injection h1 with h1
      have het1 : et1 = et2 :=
        setAttrsTrace_ok kwargs { o with name := tid } et2 et1 hsa
      subst h1
      refine ⟨?_, ?_⟩
      · rw [het1]
      · rw [← h2]

/-- C9 witness: the amended theorem applied to a truthy object and one kwarg
`display_name`. -/
theorem c9_update_mask_witness :
    setAttrsTrace { ({ display_name := "color" } : EntityType) with
        name := "tid" } [("display_name", .s "shade")] =
      (.ok { name := "tid", display_name := "shade" },
       { name := "tid", display_name := "shade" }) :=
  (c9_update_mask_amended.2 none "tid" { display_name := "color" } none
    [("display_name", .s "shade")] (fun _ => .error .remoteError)
    { entity_type := { name := "tid", display_name := "shade" },
      update_mask := { paths := ["display_name"] } }
    (some { name := "tid", display_name := "shade" }) (by decide) (by rfl)).1

/-- C10 counterexample: `delete_entity_type` given a pre-built but
all-default (falsy) object does issue the remote delete (`if obj:` is false),
contradicting the claim that supplying an object always suppresses the
RPC. -/
theorem c10_delete_with_obj_counterexample :
    delete_entity_type none (some "eid") (some ({} : EntityType))
        (fun _ => .ok ()) = (.ok (), some "eid") := by
  rfl

/-- C10 (amended): when the supplied object is truthy, `delete_entity_type`
only assigns the local id from `obj.name` and returns without building a
client or invoking the delete RPC; the remote delete is performed exactly
when the object is absent (or falsy), with the resolved entity id. -/
theorem c10_delete_with_obj_amended :
    (∀ (selfId eid : Option String) (o : EntityType)
       (send_delete : String → Except Err Unit),
      etTruthy o = true →
      delete_entity_type selfId eid (some o) send_delete = (.ok (), none)) ∧
    (∀ (i : String) (send_delete : String → Except Err Unit),
      i ≠ "" →
      delete_entity_type none (some i) none send_delete =
        (send_delete i, some i)) := by
  constructor
  · intro selfId eid o send_delete ho
    simp [delete_entity_type, ho]
  · intro i send_delete hi
    simp only [delete_entity_type, resolveId, Option.map_none, Option.getD_none,
      Bool.false_eq_true, if_false, hi, if_neg]
    rcases hsend : send_delete i with e | u
    · rfl
    · cases u
      rfl

/-- C10 witness: the amended theorem applied to a truthy object (no RPC) and
to the no-object call (RPC with the given id). -/
theorem c10_delete_with_obj_witness :
    delete_entity_type none (some "eid") (some { display_name := "color" })
        (fun _ => .ok ()) = (.ok (), none) ∧
    delete_entity_type none (some "eid") none (fun _ => .ok ()) =
      ((fun (_ : String) => (.ok () : Except Err Unit)) "eid", some "eid") :=
  ⟨c10_delete_with_obj_amended.1 none (some "eid") { display_name := "color" }
      (fun _ => .ok ()) (by decide),
   c10_delete_with_obj_amended.2 "eid" (fun _ => .ok ()) (by decide)⟩

end DfcxScrapi

